import Mathlib

/-!
Shallow embedding of the OneClip licensing system (src/licensing-system),
faithful to `enhanced_license_manager.py` and the relevant endpoints of
`license_api_server.py`.  Machine state (the MySQL tables) is modelled as
explicit lists of rows; every SQL statement of the source is translated to
the corresponding pure list operation; timestamps are integers (seconds),
one day being 86400 seconds; `datetime.now(timezone.utc)` is an explicit
`now` parameter; `time.time()` and `uuid.uuid4()` are explicit entropy
parameters.
-/

namespace OneClip

/-! ## Code generator (enhanced_license_manager.py, lines 27-102)

`CHARSET` is the 32-symbol alphabet with the visually ambiguous 0, O, 1, I, L
removed.  `calculate_checksum` hashes the 11-character identifier with
SHA-256 (Python `hashlib.sha256(short_id.encode('utf-8')).hexdigest()`), so
the embedding carries a full executable SHA-256 over byte lists, with words
as `Nat` reduced `% 2^32`. -/

def CHARSET : String := "ABCDEFGHJKLMNPQRSTUVWXYZ23456789"

def CHARSET_LENGTH : Nat := CHARSET.length

/-- The word modulus of SHA-256, 2^32. -/
def w32 : Nat := 4294967296

/-- Right-rotation of a 32-bit word (input is first reduced `% 2^32`). -/
def rotr32 (n x : Nat) : Nat :=
  (x % w32) / 2 ^ n + ((x % w32) % 2 ^ n) * 2 ^ (32 - n)

/-- UTF-8 encoding of one character, as Python's `str.encode('utf-8')`
produces it. -/
def utf8EncodeChar (c : Char) : List Nat :=
  let n := c.toNat
  if n < 128 then [n]
  else if n < 2048 then [192 + n / 64, 128 + n % 64]
  else if n < 65536 then [224 + n / 4096, 128 + (n / 64) % 64, 128 + n % 64]
  else [240 + n / 262144, 128 + (n / 4096) % 64, 128 + (n / 64) % 64, 128 + n % 64]

/-- Python `s.encode('utf-8')` as a list of byte values. -/
def strBytes (s : String) : List Nat := s.toList.flatMap utf8EncodeChar

/-- The 64 SHA-256 round constants of FIPS 180-4, in decimal. -/
def K256 : List Nat :=
  [1116352408, 1899447441, 3049323471, 3921009573, 961987163, 1508970993,
   2453635748, 2870763221, 3624381080, 310598401, 607225278, 1426881987,
   1925078388, 2162078206, 2614888103, 3248222580, 3835390401, 4022224774,
   264347078, 604807628, 770255983, 1249150122, 1555081692, 1996064986,
   2554220882, 2821834349, 2952996808, 3210313671, 3336571891, 3584528711,
   113926993, 338241895, 666307205, 773529912, 1294757372, 1396182291,
   1695183700, 1986661051, 2177026350, 2456956037, 2730485921, 2820302411,
   3259730800, 3345764771, 3516065817, 3600352804, 4094571909, 275423344,
   430227734, 506948616, 659060556, 883997877, 958139571, 1322822218,
   1537002063, 1747873779, 1955562222, 2024104815, 2227730452, 2361852424,
   2428436474, 2756734187, 3204031479, 3329325298]

/-- The SHA-256 working state: eight 32-bit words. -/
structure Sha8 where
  a : Nat
  b : Nat
  c : Nat
  d : Nat
  e : Nat
  f : Nat
  g : Nat
  h : Nat

/-- The SHA-256 initial hash value of FIPS 180-4, in decimal. -/
def sha256Init : Sha8 :=
  ⟨1779033703, 3144134277, 1013904242, 2773480762,
   1359893119, 2600822924, 528734635, 1541459225⟩

def smallS0 (x : Nat) : Nat := rotr32 7 x ^^^ rotr32 18 x ^^^ x / 8

def smallS1 (x : Nat) : Nat := rotr32 17 x ^^^ rotr32 19 x ^^^ x / 1024

def bigS0 (x : Nat) : Nat := rotr32 2 x ^^^ rotr32 13 x ^^^ rotr32 22 x

def bigS1 (x : Nat) : Nat := rotr32 6 x ^^^ rotr32 11 x ^^^ rotr32 25 x

/-- The 8-byte big-endian encoding of the message bit length. -/
def be64 (n : Nat) : List Nat :=
  [n / 2 ^ 56 % 256, n / 2 ^ 48 % 256, n / 2 ^ 40 % 256, n / 2 ^ 32 % 256,
   n / 2 ^ 24 % 256, n / 2 ^ 16 % 256, n / 2 ^ 8 % 256, n % 256]

/-- SHA-256 padding: append `0x80`, zeros to 56 mod 64, then the bit length. -/
def padMessage (msg : List Nat) : List Nat :=
  let L := msg.length
  let k := (120 - (L + 1) % 64) % 64
  msg ++ [128] ++ List.replicate k 0 ++ be64 (8 * L)

/-- Split a byte list into 64-byte blocks. -/
def chunks64 : List Nat → List (List Nat)
  | [] => []
  | b :: bs => ((b :: bs).take 64) :: chunks64 ((b :: bs).drop 64)
termination_by l => l.length
decreasing_by simp [List.length_drop]; omega

/-- Group bytes four at a time into big-endian 32-bit words. -/
def bytesToWords : List Nat → List Nat
  | a :: b :: c :: d :: rest => (((a * 256 + b) * 256 + c) * 256 + d) :: bytesToWords rest
  | _ => []

/-- Extend the 16 block words to the 64-entry message schedule. -/
def scheduleW (w16 : List Nat) : Array Nat :=
  (List.range 48).foldl
    (fun w _ =>
      let i := w.size
      w.push ((w.getD (i - 16) 0 + smallS0 (w.getD (i - 15) 0) +
               w.getD (i - 7) 0 + smallS1 (w.getD (i - 2) 0)) % w32))
    w16.toArray

/-- One 512-bit block of the SHA-256 compression function. -/
def compressBlock (hs : Sha8) (block : List Nat) : Sha8 :=
  let w := scheduleW (bytesToWords block)
  let st := (List.range 64).foldl
    (fun st i =>
      let S1 := bigS1 st.e
      let ch := (st.e &&& st.f) ^^^ ((st.e ^^^ 4294967295) &&& st.g)
      let temp1 := (st.h + S1 + ch + K256.getD i 0 + w.getD i 0) % w32
      let S0 := bigS0 st.a
      let maj := (st.a &&& st.b) ^^^ (st.a &&& st.c) ^^^ (st.b &&& st.c)
      let temp2 := (S0 + maj) % w32
      ⟨(temp1 + temp2) % w32, st.a, st.b, st.c, (st.d + temp1) % w32, st.e, st.f, st.g⟩)
    hs
  ⟨(hs.a + st.a) % w32, (hs.b + st.b) % w32, (hs.c + st.c) % w32, (hs.d + st.d) % w32,
   (hs.e + st.e) % w32, (hs.f + st.f) % w32, (hs.g + st.g) % w32, (hs.h + st.h) % w32⟩

/-- The 4-byte big-endian encoding of a 32-bit word. -/
def word4 (x : Nat) : List Nat :=
  [x / 16777216 % 256, x / 65536 % 256, x / 256 % 256, x % 256]

/-- The final SHA-256 state after absorbing all padded blocks. -/
def sha256Final (msg : List Nat) : Sha8 :=
  (chunks64 (padMessage msg)).foldl compressBlock sha256Init

/-- SHA-256 of a byte list: the 32 digest bytes. -/
def sha256Bytes (msg : List Nat) : List Nat :=
  word4 (sha256Final msg).a ++ word4 (sha256Final msg).b ++
  word4 (sha256Final msg).c ++ word4 (sha256Final msg).d ++
  word4 (sha256Final msg).e ++ word4 (sha256Final msg).f ++
  word4 (sha256Final msg).g ++ word4 (sha256Final msg).h

/-- The lowercase hexadecimal digit alphabet. -/
def hexDigits : List Char := "0123456789abcdef".toList

/-- Two lowercase hex characters of one byte, as in Python's `hexdigest()`. -/
def byteHexChars (b : Nat) : List Char := [hexDigits.getD (b / 16) '0', hexDigits.getD (b % 16) '0']

/-- Python `hashlib.sha256(bytes).hexdigest()` as a character list. -/
def hexdigestChars (msg : List Nat) : List Char := (sha256Bytes msg).flatMap byteHexChars

/-- The value of one hex digit, as `int(-, 16)` assigns it. -/
def hexCharVal (c : Char) : Nat :=
  if '0' ≤ c ∧ c ≤ '9' then c.toNat - 48
  else if 'a' ≤ c ∧ c ≤ 'f' then c.toNat - 87
  else if 'A' ≤ c ∧ c ≤ 'F' then c.toNat - 55
  else 0

/-- Python `int(s, 16)` on a nonempty string of hex digits.  (In the source it
is only ever applied to two-character slices of a 64-character hex digest,
where it cannot raise; see `hexdigestChars_length`.) -/
def intHexStr (cs : List Char) : Nat := cs.foldl (fun acc c => acc * 16 + hexCharVal c) 0

/-- Function `calculate_checksum` (enhanced_license_manager.py lines 73-93): for an
11-character identifier, SHA-256 it, take the first four hex byte-pairs,
and map each byte value into `CHARSET` by `% 32`; any other length returns
the empty string. -/
def calculate_checksum (short_id : String) : String :=
  if short_id.length ≠ 11 then "" else
  let hash_hex := hexdigestChars (strBytes short_id)
  String.mk ((List.range 4).map (fun i =>
    let hex_byte := (hash_hex.drop (i * 2)).take 2
    let int_value := intHexStr hex_byte
    CHARSET.toList.getD (int_value % CHARSET_LENGTH) 'A'))

/-- The 11-iteration digit loop of `generate_short_id`: each step prepends
`CHARSET[combined % 32]` and divides `combined` by 32. -/
def shortIdChars : Nat → Nat → List Char → List Char
  | 0, _, acc => acc
  | n + 1, c, acc => shortIdChars n (c / CHARSET_LENGTH) (CHARSET.toList.getD (c % CHARSET_LENGTH) 'A' :: acc)

/-- Function `generate_short_id` (lines 59-71), with `int(time.time()*1000)` and
`uuid.uuid4().int` passed in as the two entropy arguments. -/
def generate_short_id (timestamp_ms rand : Nat) : String :=
  let timestamp := timestamp_ms % 36 ^ 6
  let random_part := rand % 36 ^ 5
  let combined := timestamp * 36 ^ 5 + random_part
  String.mk (shortIdChars 11 combined [])

/-- Python slice `s[a:b]` (for `0 ≤ a ≤ b`). -/
def strSlice (s : String) (a b : Nat) : String := String.mk ((s.toList.drop a).take (b - a))

/-- Function `generate_activation_code` (lines 95-102):
`f"{short_id[:5]}-{short_id[5:10]}-{short_id[10:11]}{checksum}"`. -/
def generate_activation_code (t r : Nat) : String :=
  let short_id := generate_short_id t r
  let checksum := calculate_checksum short_id
  strSlice short_id 0 5 ++ "-" ++ strSlice short_id 5 10 ++ "-" ++ strSlice short_id 10 11 ++ checksum

/-- Removing the hyphens of a rendered activation code. -/
def dehyphenate (s : String) : String := String.mk (s.toList.filter (fun c => c ≠ '-'))

/-! ## Data model

The four tables of the store, as lists of rows in insertion order.  A SQL
`SELECT ... fetchone()` is `List.find?`, `UPDATE ... WHERE` is a `List.map`
that rewrites the matching rows, `INSERT` appends, `DELETE ... WHERE` is a
`List.filter` keeping the non-matching rows, and `COUNT(*)` is
`List.countP`.  The JSON `details` blob of a history entry is kept as the
association list handed to `json.dumps`. -/

structure LicenseRow where
  license_id : String
  activation_code : String
  email : String
  plan : String
  device_limit : Nat
  issued_at : Int
  valid_until : Option Int
  status : String
deriving DecidableEq, Repr

structure DeviceRow where
  license_id : String
  device_id : String
  device_name : Option String
  ip_address : Option String
  last_seen_at : Int
  is_active : Bool
deriving DecidableEq, Repr

structure RevRow where
  license_id : String
  reason : String
  revoked_by : Option String
deriving DecidableEq, Repr

structure HistoryEntry where
  license_id : String
  action : String
  device_id : Option String
  ip_address : Option String
  details : List (String × Option String)
deriving DecidableEq, Repr

structure DB where
  licenses : List LicenseRow
  device_activations : List DeviceRow
  revoked_licenses : List RevRow
  activation_history : List HistoryEntry
deriving DecidableEq, Repr

/-- Python `str.lower()` (ASCII range; the bound emails and plan names in
this system are ASCII).  Defined characterwise over the character list —
Lean's own `String.toLower` goes through an opaque auxiliary and is not
kernel-reducible. -/
def pyLower (s : String) : String := String.mk (s.data.map Char.toLower)

/-- Python `str.strip()` with the default whitespace set. -/
def pyStrip (s : String) : String :=
  String.mk (((s.data.dropWhile Char.isWhitespace).reverse.dropWhile Char.isWhitespace).reverse)

/-- Splitting a character list at every occurrence of `sep` (the semantics
of `str.split(sep)` for a one-character separator). -/
def splitOnCharList (sep : Char) : List Char → List (List Char)
  | [] => [[]]
  | c :: cs =>
    match splitOnCharList sep cs with
    | [] => [[]]
    | seg :: segs => if c = sep then [] :: seg :: segs else (c :: seg) :: segs

/-- Re-joining segments with `'.'` (inverse of `splitOnCharList '.'`). -/
def joinSepDot : List (List Char) → List Char
  | [] => []
  | [x] => x
  | x :: xs => x ++ '.' :: joinSepDot xs

/-- The dictionary returned by `verify_license_with_email`, restricted to the
fields the claims observe (`valid`, identity/plan data, `message`, `error`). -/
structure VerifyResult where
  valid : Bool
  license_id : Option String
  plan : Option String
  device_cap : Option Nat
  valid_until : Option Int
  message : Option String
  error : Option String
deriving DecidableEq, Repr

def VerifyResult.fail (msg : String) : VerifyResult :=
  ⟨false, none, none, none, none, none, some msg⟩

def VerifyResult.ok (lc : LicenseRow) (message : Option String) : VerifyResult :=
  ⟨true, some lc.license_id, some lc.plan, some lc.device_limit, lc.valid_until, message, none⟩

/-- The WHERE clause `activation_code = %s AND status = 'active'` of the
license lookup (line 188-193). -/
def licenseKeyMatch (code : String) (l : LicenseRow) : Bool :=
  l.activation_code == code && l.status == "active"

/-- The WHERE clause `license_id = %s AND device_id = %s` on
`device_activations`. -/
def deviceKeyMatch (lid did : String) (d : DeviceRow) : Bool :=
  d.license_id == lid && d.device_id == did

/-- The WHERE clause `license_id = %s AND is_active = 1`. -/
def matchesActive (lid : String) (d : DeviceRow) : Bool :=
  d.license_id == lid && d.is_active

/-- The query `SELECT COUNT(*) FROM device_activations WHERE license_id = %s AND
is_active = 1` (lines 259-263). -/
def activeCount (db : DB) (lid : String) : Nat :=
  db.device_activations.countP (matchesActive lid)

def codeNotFoundMsg : String := "激活码不存在或已停用"

def emailMismatchMsg : String := "邮箱与激活码不匹配"

def expiredMsg : String := "激活码已过期"

def deviceSuspendedMsg : String := "设备已被停用，请联系管理员恢复"

def heartbeatOkMsg : String := "设备已激活"

/-- The f-string `f"设备数量已达上限({result['device_limit']}台)"` (line 266). -/
def quotaExceededMsg (limit : Nat) : String :=
  "设备数量已达上限(" ++ toString limit ++ "台)"

/-- The check `if result['valid_until']: ... if now_utc > valid_until` (lines 204-214);
a `None` expiry is never compared. -/
def licenseExpired (lc : LicenseRow) (now : Int) : Bool :=
  match lc.valid_until with
  | some vu => decide (now > vu)
  | none => false

/-- The `UPDATE device_activations SET last_seen_at = %s, device_name = %s,
ip_address = %s WHERE license_id = %s AND device_id = %s` of the heartbeat
path (lines 229-233), as a row rewriter. -/
def heartbeatUpdate (now : Int) (device_name ip_address : Option String)
    (lid did : String) (d : DeviceRow) : DeviceRow :=
  if deviceKeyMatch lid did d then
    { d with last_seen_at := now, device_name := device_name, ip_address := ip_address }
  else d

/-- The already-known-device branch (lines 226-256): an active row gets its
`last_seen_at`/`device_name`/`ip_address` refreshed plus a `heartbeat`
history entry; a suspended row is refused. -/
def verifyKnownDevice (db : DB) (now : Int) (lc : LicenseRow) (did : String)
    (device_name ip_address : Option String) (row : DeviceRow) : VerifyResult × DB :=
  if row.is_active then
    (VerifyResult.ok lc (some heartbeatOkMsg),
     { db with
        device_activations :=
          db.device_activations.map (heartbeatUpdate now device_name ip_address lc.license_id did),
        activation_history := db.activation_history ++
          [⟨lc.license_id, "heartbeat", some did, ip_address, [("device_name", device_name)]⟩] })
  else (VerifyResult.fail deviceSuspendedMsg, db)

/-- The new-device branch (lines 257-282): count the active rows, refuse at
the limit, otherwise insert an active row and an `activate` entry. -/
def verifyNewDevice (db : DB) (now : Int) (lc : LicenseRow) (did : String)
    (device_name ip_address : Option String) : VerifyResult × DB :=
  let current_devices := activeCount db lc.license_id
  if current_devices ≥ lc.device_limit then
    (VerifyResult.fail (quotaExceededMsg lc.device_limit), db)
  else
    (VerifyResult.ok lc none,
     { db with
        device_activations := db.device_activations ++
          [⟨lc.license_id, did, device_name, ip_address, now, true⟩],
        activation_history := db.activation_history ++
          [⟨lc.license_id, "activate", some did, ip_address, [("device_name", device_name)]⟩] })

/-- The `if device_id:` part of the verification (lines 216-283). -/
def verifyDevicePhase (db : DB) (now : Int) (lc : LicenseRow) (device_id : Option String)
    (device_name ip_address : Option String) : VerifyResult × DB :=
  match device_id with
  | none => (VerifyResult.ok lc none, db)
  | some did =>
    match db.device_activations.find? (deviceKeyMatch lc.license_id did) with
    | some row => verifyKnownDevice db now lc did device_name ip_address row
    | none => verifyNewDevice db now lc did device_name ip_address

/-- Function `verify_license_with_email` (enhanced_license_manager.py lines 180-299).
Returns the result dictionary and the committed database state. -/
def verify_license_with_email (db : DB) (now : Int) (activation_code email : String)
    (device_id device_name ip_address : Option String) : VerifyResult × DB :=
  match db.licenses.find? (licenseKeyMatch activation_code) with
  | none => (VerifyResult.fail codeNotFoundMsg, db)
  | some lc =>
    if pyLower lc.email != pyLower email then (VerifyResult.fail emailMismatchMsg, db)
    else if licenseExpired lc now then (VerifyResult.fail expiredMsg, db)
    else verifyDevicePhase db now lc device_id device_name ip_address

/-- Function `deactivate_device` (lines 338-375): suspend, `SET is_active = 0`, row
retained. -/
def deactivate_device (db : DB) (license_id device_id reason : String) : Bool × DB :=
  if db.device_activations.any (deviceKeyMatch license_id device_id) then
    (true,
     { db with
        device_activations := db.device_activations.map (fun d =>
          if deviceKeyMatch license_id device_id d then { d with is_active := false } else d),
        activation_history := db.activation_history ++
          [⟨license_id, "deactivate", some device_id, none,
            [("reason", some reason), ("deactivated_by", some "admin")]⟩] })
  else (false, db)

/-- Function `activate_device` (lines 377-414): the administrative restore,
`SET is_active = 1` with no quota check, history action `renew`. -/
def activate_device (db : DB) (license_id device_id reason : String) : Bool × DB :=
  if db.device_activations.any (deviceKeyMatch license_id device_id) then
    (true,
     { db with
        device_activations := db.device_activations.map (fun d =>
          if deviceKeyMatch license_id device_id d then { d with is_active := true } else d),
        activation_history := db.activation_history ++
          [⟨license_id, "renew", some device_id, none,
            [("reason", some reason), ("activated_by", some "admin")]⟩] })
  else (false, db)

/-- Function `cancel_device_activation` (lines 416-452): requires an *active* row,
then deletes it (frees the slot), history action `cancel`. -/
def cancel_device_activation (db : DB) (license_id device_id reason : String) : Bool × DB :=
  if db.device_activations.any (fun d => deviceKeyMatch license_id device_id d && d.is_active) then
    (true,
     { db with
        device_activations := db.device_activations.filter (fun d => !deviceKeyMatch license_id device_id d),
        activation_history := db.activation_history ++
          [⟨license_id, "cancel", some device_id, none,
            [("reason", some reason), ("canceled_by", some "user")]⟩] })
  else (false, db)

/-- The `/api/restore-device` endpoint (license_api_server.py lines
3020-3097): verify code+email (no device, so no write), then if the row
exists `SET is_active = 1` — again with no quota check — and append a
`restore` entry. -/
def restore_device (db : DB) (now : Int) (activation_code email device_id reason : String) :
    Bool × DB :=
  let vr := verify_license_with_email db now activation_code email none none none
  if vr.1.valid then
    match vr.1.license_id with
    | some lid =>
      if vr.2.device_activations.any (deviceKeyMatch lid device_id) then
        (true,
         { vr.2 with
            device_activations := vr.2.device_activations.map (fun d =>
              if deviceKeyMatch lid device_id d then { d with is_active := true } else d),
            activation_history := vr.2.activation_history ++
              [⟨lid, "restore", some device_id, none,
                [("reason", some reason), ("restored_by", some "user")]⟩] })
      else (false, vr.2)
    | none => (false, vr.2)
  else (false, vr.2)

/-- The `/api/delete-device` endpoint (lines 3099-3175): verify code+email,
then hard-delete the row from any state, history action `delete`. -/
def delete_device (db : DB) (now : Int) (activation_code email device_id reason : String) :
    Bool × DB :=
  let vr := verify_license_with_email db now activation_code email none none none
  if vr.1.valid then
    match vr.1.license_id with
    | some lid =>
      if vr.2.device_activations.any (deviceKeyMatch lid device_id) then
        (true,
         { vr.2 with
            device_activations := vr.2.device_activations.filter (fun d => !deviceKeyMatch lid device_id d),
            activation_history := vr.2.activation_history ++
              [⟨lid, "delete", some device_id, none,
                [("reason", some reason), ("deleted_by", some "user")]⟩] })
      else (false, vr.2)
    | none => (false, vr.2)
  else (false, vr.2)

/-- In `revoke_license` (lines 301-336), the `INSERT ... ON DUPLICATE KEY
UPDATE reason = VALUES(reason), revoked_by = VALUES(revoked_by)` is an
upsert keyed on `license_id`.  Modelled from the spec: the
`revoked_licenses` table schema is not under src/ (no CREATE TABLE for it
ships with the source); spec §3 declares `RevocationRecord.license_id`
unique, which is the key the source's ON DUPLICATE KEY UPDATE clause
relies on. -/
def revokeUpsert (l : List RevRow) (license_id reason : String) (revoked_by : Option String) :
    List RevRow :=
  if l.any (fun rr => rr.license_id == license_id) then
    l.map (fun rr =>
      if rr.license_id == license_id then { rr with reason := reason, revoked_by := revoked_by } else rr)
  else l ++ [⟨license_id, reason, revoked_by⟩]

/-- Function `revoke_license` (lines 301-336): existence check on `licenses`, the
revocation-record upsert, `status = "revoked"`, and a `revoke` history
entry, all in one transaction. -/
def revoke_license (db : DB) (license_id reason : String) (revoked_by : Option String) :
    Bool × DB :=
  if db.licenses.any (fun l => l.license_id == license_id) then
    let revoked' := revokeUpsert db.revoked_licenses license_id reason revoked_by
    (true,
     { db with
        revoked_licenses := revoked',
        licenses := db.licenses.map (fun l =>
          if l.license_id == license_id then { l with status := "revoked" } else l),
        activation_history := db.activation_history ++
          [⟨license_id, "revoke", none, none, [("reason", some reason), ("revoked_by", revoked_by)]⟩] })
  else (false, db)

/-! ## Issuance (`generate_license_with_email`, lines 104-178) -/

/-- One character of the local part of `r'^[a-zA-Z0-9._%+-]+@...'`. -/
def isEmailLocalChar (c : Char) : Bool :=
  c.isAlpha || c.isDigit || c == '.' || c == '_' || c == '%' || c == '+' || c == '-'

/-- One character of the domain class `[a-zA-Z0-9.-]`. -/
def isEmailDomainChar (c : Char) : Bool :=
  c.isAlpha || c.isDigit || c == '.' || c == '-'

/-- Function `is_valid_email` (lines 577-581):
`re.match(r'^[a-zA-Z0-9._%+-]+@[a-zA-Z0-9.-]+\.[a-zA-Z]{2,}$', email)`.
Since `@` occurs in no character class, a match splits the string at its
single `@`; and since the trailing `[a-zA-Z]{2,}$` run admits no dot, any
successful decomposition of the domain places the literal `\.` at the
domain's *last* dot — so the regex is decided by splitting there: the
local part is nonempty over its class, the domain is over its class, has
at least one dot, a nonempty part before its last dot, and an all-alpha
final segment of length at least 2. -/
def is_valid_email (email : String) : Bool :=
  match splitOnCharList '@' email.data with
  | [localPart, domain] =>
    !localPart.isEmpty && localPart.all isEmailLocalChar &&
    domain.all isEmailDomainChar &&
    (let parts := splitOnCharList '.' domain
     decide (2 ≤ parts.length) &&
     (let tld := parts.getLastD []
      decide (2 ≤ tld.length) && tld.all Char.isAlpha &&
      !(joinSepDot parts.dropLast).isEmpty))
  | _ => false

/-- The fields of the dictionary returned by `generate_license_with_email`
that the claims observe. -/
structure GenerateResult where
  error : Option String
  license_id : Option String
  activation_code : Option String
  plan : Option String
  device_cap : Option Nat
  valid_until : Option Int
deriving DecidableEq, Repr

/-- Python falsiness of the optional `days` argument: `not days` is true for
both `None` and `0`. -/
def pyIntFalsy (d : Option Int) : Bool := d == none || d == some 0

/-- The duration-resolution logic of `generate_license_with_email` (lines
127-140): `not days` defaults a falsy override to the plan default
(monthly → 31, yearly → 365), and `if days and normalized_plan !=
'lifetime'` computes the expiry. -/
def resolveValidUntil (normalized_plan : String) (days : Option Int) (now : Int) : Option Int :=
  let days1 := if normalized_plan == "monthly" && pyIntFalsy days then some 31 else days
  let days2 := if normalized_plan == "yearly" && pyIntFalsy days1 then some 365 else days1
  if !pyIntFalsy days2 && normalized_plan != "lifetime" then
    some (now + 86400 * days2.getD 0)
  else none

/-- Function `generate_license_with_email` (lines 104-178).  `days` arrives already
`int(...)`-normalized (a failed conversion yields `none`, line 120-125);
`t`, `r` and `uuid_hex8` are the entropy sources (`time.time`,
`uuid.uuid4().int`, `uuid.uuid4().hex[:8].upper()`).  Modelled from the
spec: the `licenses` table schema is not under src/, and the INSERT names
no `status` column; per spec §3 a freshly issued license has status
`active` (which is also the only status `verify` matches). -/
def generate_license_with_email (db : DB) (now : Int) (plan email : String) (device_cap : Nat)
    (days : Option Int) (t r : Nat) (uuid_hex8 : String) : GenerateResult × DB :=
  if !is_valid_email email then (⟨some "邮箱格式无效", none, none, none, none, none⟩, db)
  else
    let normalized_plan := pyLower (pyStrip plan)
    if !(normalized_plan == "monthly" || normalized_plan == "yearly" || normalized_plan == "lifetime") then
      (⟨some "未知的套餐类型", none, none, none, none, none⟩, db)
    else
      let activation_code := generate_activation_code t r
      let license_id := "LIC-" ++ uuid_hex8
      let valid_until : Option Int := resolveValidUntil normalized_plan days now
      let row : LicenseRow :=
        ⟨license_id, activation_code, email, normalized_plan, device_cap, now, valid_until, "active"⟩
      (⟨none, some license_id, some activation_code, some normalized_plan, some device_cap, valid_until⟩,
       { db with licenses := db.licenses ++ [row] })

/-! ## Admin extend-validity (license_api_server.py lines 810-836) -/

/-- SQL `IFNULL(a, b)`: `a` when non-NULL, else `b`. -/
def ifnull (a b : Option Int) : Option Int :=
  match a with
  | some x => some x
  | none => b

/-- SQL `DATE_ADD(t, INTERVAL days DAY)`; NULL propagates. -/
def date_add_days (t : Option Int) (days : Int) : Option Int :=
  t.map (fun x => x + 86400 * days)

/-- The SET expression of the source (line 826-830):
`valid_until = IFNULL(DATE_ADD(UTC_TIMESTAMP(), INTERVAL d DAY),
               DATE_ADD(valid_until, INTERVAL d DAY))`. -/
def admin_extend_validity_update (now days : Int) (valid_until : Option Int) : Option Int :=
  ifnull (date_add_days (some now) days) (date_add_days valid_until days)

/-- The whole `/api/admin/extend-validity` UPDATE applied to the store. -/
def admin_extend_validity (db : DB) (now : Int) (license_id : String) (days : Int) : DB :=
  { db with
     licenses := db.licenses.map (fun l =>
       if l.license_id == license_id then
         { l with valid_until := admin_extend_validity_update now days l.valid_until }
       else l) }

/-- Modelled from the spec: the behavior spec §4.2 — and the source's own
comment, line 825, "如果当前为 NULL，则从现在起算；否则在原基础上增加" —
prescribe for extend-validity: a NULL expiry becomes now + days, a non-NULL
expiry is *extended* by days. -/
def extend_validity_spec (now days : Int) (valid_until : Option Int) : Option Int :=
  match valid_until with
  | none => some (now + 86400 * days)
  | some v => some (v + 86400 * days)

/-! ## The verify endpoint response (license_api_server.py lines 536-569)

Only the branch after parameter validation is modelled: the endpoint calls
`verify_license_with_email` and, on failure, copies the manager's `error`
string verbatim into the externally returned `message`, with the fixed
code `INVALID_LICENSE` and HTTP status 400. -/

structure ApiResponse where
  success : Bool
  message : String
  code : String
  status : Nat
deriving DecidableEq, Repr

def verify_license_endpoint (db : DB) (now : Int) (license_code email device_id : String)
    (device_name ip : Option String) : ApiResponse × DB :=
  let vr := verify_license_with_email db now license_code email (some device_id) device_name ip
  if vr.1.valid then
    ({ success := true, message := "许可证验证成功", code := "SUCCESS", status := 200 }, vr.2)
  else
    ({ success := false, message := vr.1.error.getD "许可证验证失败",
       code := "INVALID_LICENSE", status := 400 }, vr.2)

/-! ## The first-time-activation race (claim C2)

The new-device path of `verify_license_with_email` issues three separate
SQL statements inside one ordinary transaction: the existence probe (lines
219-224), the active-row COUNT (lines 259-263), and the guarded INSERT with
COMMIT (lines 265-281).  The source takes no row lock (no `SELECT ... FOR
UPDATE`) and sets no serializable isolation level, so the store may run two
sessions' statements interleaved, each session's guard using the count *it*
read.  The three statement functions below are those statements verbatim;
`raceTwoActivations` executes the interleaving probe-A, probe-B, count-A,
count-B, insert-A, insert-B. -/

def newDeviceCheckExisting (db : DB) (lid did : String) : Option DeviceRow :=
  db.device_activations.find? (deviceKeyMatch lid did)

def newDeviceCountActive (db : DB) (lid : String) : Nat := activeCount db lid

def newDeviceGuardedInsert (db : DB) (lc : LicenseRow) (did : String)
    (device_name ip : Option String) (now : Int) (savedCount : Nat) : Bool × DB :=
  if savedCount ≥ lc.device_limit then (false, db)
  else
    (true,
     { db with
        device_activations := db.device_activations ++ [⟨lc.license_id, did, device_name, ip, now, true⟩],
        activation_history := db.activation_history ++
          [⟨lc.license_id, "activate", some did, ip, [("device_name", device_name)]⟩] })

def raceTwoActivations (db : DB) (lc : LicenseRow) (dA dB : String) (now : Int) :
    Bool × Bool × DB :=
  match newDeviceCheckExisting db lc.license_id dA, newDeviceCheckExisting db lc.license_id dB with
  | none, none =>
    let cA := newDeviceCountActive db lc.license_id
    let cB := newDeviceCountActive db lc.license_id
    let resA := newDeviceGuardedInsert db lc dA none none now cA
    let resB := newDeviceGuardedInsert resA.2 lc dB none none now cB
    (resA.1, resB.1, resB.2)
  | _, _ => (false, false, db)

/-! ## Operation sequences over the ledger (claim C1) -/

inductive LedgerOp where
  | verify (now : Int) (activation_code email : String) (device_id device_name ip : Option String)
  | suspend (license_id device_id reason : String)
  | restoreAdmin (license_id device_id reason : String)
  | restoreUser (now : Int) (activation_code email device_id reason : String)
  | cancel (license_id device_id reason : String)
  | deleteDevice (now : Int) (activation_code email device_id reason : String)
  | revoke (license_id reason : String) (revoked_by : Option String)
deriving DecidableEq, Repr

def applyOp (db : DB) : LedgerOp → DB
  | .verify now code email did dn ip => (verify_license_with_email db now code email did dn ip).2
  | .suspend lid did reason => (deactivate_device db lid did reason).2
  | .restoreAdmin lid did reason => (activate_device db lid did reason).2
  | .restoreUser now code email did reason => (restore_device db now code email did reason).2
  | .cancel lid did reason => (cancel_device_activation db lid did reason).2
  | .deleteDevice now code email did reason => (delete_device db now code email did reason).2
  | .revoke lid reason rby => (revoke_license db lid reason rby).2

def isRestoreOp : LedgerOp → Bool
  | .restoreAdmin _ _ _ => true
  | .restoreUser _ _ _ _ _ => true
  | _ => false

/-- The spec §3 invariant: no license ever has more active device rows than
its `device_limit`. -/
def QuotaInv (db : DB) : Prop :=
  ∀ lc ∈ db.licenses, activeCount db lc.license_id ≤ lc.device_limit

/-- Distinctness of license ids, the store's uniqueness constraint on
`licenses.license_id` (spec §6). -/
def LicenseIdsNodup (db : DB) : Prop :=
  (db.licenses.map (fun l => l.license_id)).Nodup

/-! ## A heartbeat-ready configuration and the iterated heartbeat -/

/-- The hypotheses under which `verify_license_with_email` takes its
heartbeat path: the code resolves to an active-status license, the email
matches case-insensitively, the license is not expired, and the device
already has an active row. -/
def HeartbeatReady (db : DB) (now : Int) (code email did : String) : Prop :=
  ∃ lc row,
    db.licenses.find? (licenseKeyMatch code) = some lc ∧
    pyLower lc.email = pyLower email ∧
    licenseExpired lc now = false ∧
    db.device_activations.find? (deviceKeyMatch lc.license_id did) = some row ∧
    row.is_active = true

/-- Iterating the same verification call n times, threading the store. -/
def iterHeartbeat (db : DB) (now : Int) (code email did : String) (dn ip : Option String) :
    Nat → DB
  | 0 => db
  | n + 1 =>
    (verify_license_with_email (iterHeartbeat db now code email did dn ip n)
      now code email (some did) dn ip).2

/-! ## Concrete fixtures for counterexamples and witnesses -/

def exLicense : LicenseRow := ⟨"L1", "C1", "a@b.co", "monthly", 1, 0, none, "active"⟩

def exDB : DB := ⟨[exLicense], [], [], []⟩

/-- The store `exDB` after a first successful activation of device `d1`. -/
def exDBd1 : DB := (verify_license_with_email exDB 0 "C1" "a@b.co" (some "d1") none none).2

/-- The store `exDBd1` after suspending `d1`. -/
def exDBsusp : DB := (deactivate_device exDBd1 "L1" "d1" "susp").2

/-- Claim C1's counterexample run: activate d1, suspend d1, activate d2
(taking the slot the suspension freed), restore d1. -/
def exOpsC1 : List LedgerOp :=
  [.verify 0 "C1" "a@b.co" (some "d1") none none,
   .suspend "L1" "d1" "susp",
   .verify 1 "C1" "a@b.co" (some "d2") none none,
   .restoreAdmin "L1" "d1" "restore"]

/-- A restore-free op sequence: activate d1, heartbeat d1, suspend d1,
activate d2, delete d1. -/
def exOpsNR : List LedgerOp :=
  [.verify 0 "C1" "a@b.co" (some "d1") none none,
   .verify 1 "C1" "a@b.co" (some "d1") none none,
   .suspend "L1" "d1" "susp",
   .verify 2 "C1" "a@b.co" (some "d2") none none,
   .deleteDevice 3 "C1" "a@b.co" "d1" "del"]

/-! ## Generic list lemmas -/

theorem countP_map_eq {α : Type} (f : α → α) (p : α → Bool) (l : List α)
    (hf : ∀ a, p (f a) = p a) : (l.map f).countP p = l.countP p := by
  induction l with
  | nil => rfl
  | cons a l ih => simp [List.countP_cons, hf, ih]

theorem countP_map_le {α : Type} (f : α → α) (p : α → Bool) (l : List α)
    (hf : ∀ a, p (f a) = true → p a = true) : (l.map f).countP p ≤ l.countP p := by
  induction l with
  | nil => exact Nat.le_refl _
  | cons a l ih =>
    simp only [List.map_cons, List.countP_cons]
    have hle : (if p (f a) = true then 1 else 0) ≤ (if p a = true then 1 else 0) := by
      cases hpa : p (f a)
      · simp
      · rw [hf a hpa]
    exact Nat.add_le_add ih hle

theorem countP_filter_le {α : Type} (p q : α → Bool) (l : List α) :
    (l.filter q).countP p ≤ l.countP p := by
  induction l with
  | nil => exact Nat.le_refl _
  | cons a l ih =>
    rw [List.filter_cons]
    cases hq : q a
    · rw [if_neg (by simp [hq]), List.countP_cons]
      exact Nat.le_trans ih (Nat.le_add_right _ _)
    · rw [if_pos (by simp [hq]), List.countP_cons, List.countP_cons]
      exact Nat.add_le_add ih (Nat.le_refl _)

theorem find?_map_pres {α : Type} (f : α → α) (p : α → Bool) (l : List α)
    (hf : ∀ a, p (f a) = p a) : (l.map f).find? p = (l.find? p).map f := by
  induction l with
  | nil => rfl
  | cons a l ih =>
    simp only [List.map_cons, List.find?]
    cases hpa : p a <;> simp [hf, hpa, ih]

theorem getD_mem {α : Type} (l : List α) (n : Nat) (d : α) (h : n < l.length) :
    l.getD n d ∈ l := by
  rw [List.getD_eq_getElem?_getD, List.getElem?_eq_getElem h]
  exact List.getElem_mem h

/-! ## Digest and checksum invariants -/

theorem sha256Bytes_length (msg : List Nat) : (sha256Bytes msg).length = 32 := by
  simp only [sha256Bytes, word4, List.length_append, List.length_cons, List.length_nil]

theorem flatMap_byteHexChars_length (l : List Nat) :
    (l.flatMap byteHexChars).length = 2 * l.length := by
  induction l with
  | nil => rfl
  | cons a l ih => simp [List.flatMap_cons, byteHexChars, ih]; omega

/-- Every SHA-256 hex digest is 64 characters long — in particular long
enough that all four two-character slices taken by `calculate_checksum`
are full byte pairs (so the modelled `int(-, 16)` is the real one and the
Python original cannot raise there). -/
theorem hexdigestChars_length (msg : List Nat) : (hexdigestChars msg).length = 64 := by
  unfold hexdigestChars
  rw [flatMap_byteHexChars_length, sha256Bytes_length]

theorem calculate_checksum_empty (s : String) (h : s.length ≠ 11) :
    calculate_checksum s = "" := by
  unfold calculate_checksum
  rw [if_pos h]

theorem calculate_checksum_length (s : String) (h : s.length = 11) :
    (calculate_checksum s).length = 4 := by
  unfold calculate_checksum
  rw [if_neg (fun hn => hn h)]
  show ((List.range 4).map _).length = 4
  rw [List.length_map, List.length_range]

theorem calculate_checksum_mem (s : String) (h : s.length = 11) :
    ∀ c ∈ (calculate_checksum s).toList, c ∈ CHARSET.toList := by
  unfold calculate_checksum
  rw [if_neg (fun hn => hn h)]
  intro c hc
  simp only [String.toList] at hc
  simp only [List.mem_map, List.mem_range] at hc
  obtain ⟨i, _, rfl⟩ := hc
  exact getD_mem _ _ _ (Nat.lt_of_lt_of_eq (Nat.mod_lt _ (by decide)) (by rfl))

/-- C10: `calculate_checksum` is total: any input whose length is not 11
yields the empty-string sentinel (the function returns before hashing),
and any 11-character input yields a 4-character string drawn entirely from
the 32-symbol alphabet `CHARSET`. -/
theorem C10_checksum_total (s : String) :
    (s.length ≠ 11 → calculate_checksum s = "") ∧
    (s.length = 11 →
      (calculate_checksum s).length = 4 ∧
      ∀ c ∈ (calculate_checksum s).toList, c ∈ CHARSET.toList) :=
  ⟨fun h => calculate_checksum_empty s h,
   fun h => ⟨calculate_checksum_length s h, calculate_checksum_mem s h⟩⟩

/-- Witness for C10 at the concrete inputs `"HELLO"` (length 5) and
`"ABCDEFGHJKM"` (length 11). -/
theorem C10_witness :
    calculate_checksum "HELLO" = "" ∧
    (calculate_checksum "ABCDEFGHJKM").length = 4 ∧
    ∀ c ∈ (calculate_checksum "ABCDEFGHJKM").toList, c ∈ CHARSET.toList :=
  ⟨(C10_checksum_total "HELLO").1 (by decide),
   ((C10_checksum_total "ABCDEFGHJKM").2 (by decide)).1,
   ((C10_checksum_total "ABCDEFGHJKM").2 (by decide)).2⟩

/-! ## The generated code's shape (claim C7) -/

theorem shortIdChars_length (n : Nat) :
    ∀ (c : Nat) (acc : List Char), (shortIdChars n c acc).length = n + acc.length := by
  induction n with
  | zero => intro c acc; simp [shortIdChars]
  | succ n ih =>
    intro c acc
    rw [shortIdChars, ih]
    simp; omega

theorem shortIdChars_mem (n : Nat) :
    ∀ (c : Nat) (acc : List Char), (∀ x ∈ acc, x ∈ CHARSET.toList) →
      ∀ x ∈ shortIdChars n c acc, x ∈ CHARSET.toList := by
  induction n with
  | zero => intro c acc hacc; exact hacc
  | succ n ih =>
    intro c acc hacc
    apply ih
    intro x hx
    rcases List.mem_cons.mp hx with rfl | hx
    · exact getD_mem _ _ _ (Nat.lt_of_lt_of_eq (Nat.mod_lt _ (by decide)) (by rfl))
    · exact hacc x hx

theorem generate_short_id_length (t r : Nat) : (generate_short_id t r).length = 11 := by
  unfold generate_short_id
  simp [String.length, shortIdChars_length]

theorem generate_short_id_mem (t r : Nat) :
    ∀ x ∈ (generate_short_id t r).toList, x ∈ CHARSET.toList := by
  unfold generate_short_id
  intro x hx
  exact shortIdChars_mem 11 _ [] (by intro y hy; cases hy) x hx

theorem charset_no_hyphen : ∀ c ∈ CHARSET.toList, (decide (c ≠ '-')) = true := by decide

theorem filter_no_hyphen (l : List Char) (h : ∀ c ∈ l, c ∈ CHARSET.toList) :
    l.filter (fun c => decide (c ≠ '-')) = l :=
  List.filter_eq_self.mpr (fun c hc => charset_no_hyphen c (h c hc))

theorem take_drop_recompose (l : List Char) (h : l.length = 11) :
    l.take 5 ++ ((l.drop 5).take 5 ++ (l.drop 10).take 1) = l := by
  have h10 : (l.drop 5).drop 5 = l.drop 10 := by
    rw [List.drop_drop]
  have h1 : (l.drop 10).take 1 = l.drop 10 := by
    apply List.take_of_length_le
    simp [h]
  rw [h1, ← h10, List.take_append_drop, List.take_append_drop]

/-- C7: every generated activation code round-trips: de-hyphenating
`generate_activation_code t r` yields exactly the 11-character short id
followed by its 4-character checksum, and the embedded checksum is
`calculate_checksum` of the identifier. -/
theorem C7_code_roundtrip (t r : Nat) :
    dehyphenate (generate_activation_code t r) =
      generate_short_id t r ++ calculate_checksum (generate_short_id t r) ∧
    (generate_short_id t r).length = 11 ∧
    (calculate_checksum (generate_short_id t r)).length = 4 := by
  refine ⟨?_, generate_short_id_length t r, calculate_checksum_length _ (generate_short_id_length t r)⟩
  apply String.ext
  set sid := generate_short_id t r with hsid
  have hlen : sid.data.length = 11 := generate_short_id_length t r
  have hmem : ∀ x ∈ sid.data, x ∈ CHARSET.toList := generate_short_id_mem t r
  have hcks : ∀ x ∈ (calculate_checksum sid).data, x ∈ CHARSET.toList :=
    calculate_checksum_mem sid (generate_short_id_length t r)
  show (dehyphenate (generate_activation_code t r)).data = _
  simp only [dehyphenate, generate_activation_code, strSlice, ← hsid, String.data_append,
    String.toList]
  have hdash : List.filter (fun c => decide (c ≠ '-')) ['-'] = [] := by decide
  have hdash' : ("-" : String).data.filter (fun c => decide (c ≠ '-')) = [] := by decide
  simp only [List.filter_append, hdash, hdash', Nat.sub_zero, List.drop_zero,
    List.append_nil, List.nil_append]
  rw [filter_no_hyphen _ (fun c hc => hmem c (List.take_subset 5 _ hc)),
      filter_no_hyphen _ (fun c hc => hmem c (List.drop_subset 5 _ (List.take_subset 5 _ hc))),
      filter_no_hyphen _ (fun c hc => hmem c (List.drop_subset 10 _ (List.take_subset 1 _ hc))),
      filter_no_hyphen _ hcks]
  rw [List.append_assoc (List.take 5 sid.data) (List.take 5 (List.drop 5 sid.data))
        (List.take 1 (List.drop 10 sid.data)),
      take_drop_recompose sid.data hlen]

/-! ## Equation lemmas for the verification pipeline -/

theorem verify_eq_none (db : DB) (now : Int) (code email : String) (did dn ip : Option String)
    (h : db.licenses.find? (licenseKeyMatch code) = none) :
    verify_license_with_email db now code email did dn ip = (VerifyResult.fail codeNotFoundMsg, db) := by
  unfold verify_license_with_email
  rw [h]

theorem verify_eq_some (db : DB) (now : Int) (code email : String) (did dn ip : Option String)
    (lc : LicenseRow) (h : db.licenses.find? (licenseKeyMatch code) = some lc) :
    verify_license_with_email db now code email did dn ip =
      if pyLower lc.email != pyLower email then (VerifyResult.fail emailMismatchMsg, db)
      else if licenseExpired lc now then (VerifyResult.fail expiredMsg, db)
      else verifyDevicePhase db now lc did dn ip := by
  unfold verify_license_with_email
  rw [h]

theorem devicePhase_found (db : DB) (now : Int) (lc : LicenseRow) (did : String)
    (dn ip : Option String) (row : DeviceRow)
    (h : db.device_activations.find? (deviceKeyMatch lc.license_id did) = some row) :
    verifyDevicePhase db now lc (some did) dn ip = verifyKnownDevice db now lc did dn ip row := by
  simp only [verifyDevicePhase, h]

theorem devicePhase_new (db : DB) (now : Int) (lc : LicenseRow) (did : String)
    (dn ip : Option String)
    (h : db.device_activations.find? (deviceKeyMatch lc.license_id did) = none) :
    verifyDevicePhase db now lc (some did) dn ip = verifyNewDevice db now lc did dn ip := by
  simp only [verifyDevicePhase, h]

/-- A verification call without a `device_id` never writes (read-only
license check). -/
theorem verify_none_db (db : DB) (now : Int) (code email : String) (dn ip : Option String) :
    (verify_license_with_email db now code email none dn ip).2 = db := by
  cases h : db.licenses.find? (licenseKeyMatch code) with
  | none => rw [verify_eq_none db now code email none dn ip h]
  | some lc =>
    rw [verify_eq_some db now code email none dn ip lc h]
    split
    · rfl
    · split
      · rfl
      · rfl

/-- Verification never touches the `licenses` table. -/
theorem verify_licenses_eq (db : DB) (now : Int) (code email : String) (did dn ip : Option String) :
    (verify_license_with_email db now code email did dn ip).2.licenses = db.licenses := by
  cases h : db.licenses.find? (licenseKeyMatch code) with
  | none => rw [verify_eq_none db now code email did dn ip h]
  | some lc =>
    rw [verify_eq_some db now code email did dn ip lc h]
    split
    · rfl
    · split
      · rfl
      · cases did with
        | none => rfl
        | some d =>
          cases hdev : db.device_activations.find? (deviceKeyMatch lc.license_id d) with
          | some row =>
            rw [devicePhase_found db now lc d dn ip row hdev]
            unfold verifyKnownDevice
            split <;> rfl
          | none =>
            rw [devicePhase_new db now lc d dn ip hdev]
            simp only [verifyNewDevice]
            split <;> rfl

/-! ## Field-preservation lemmas for row rewriters -/

theorem heartbeatUpdate_matchesActive (now : Int) (dn ip : Option String) (lid did lid' : String)
    (d : DeviceRow) :
    matchesActive lid' (heartbeatUpdate now dn ip lid did d) = matchesActive lid' d := by
  unfold heartbeatUpdate matchesActive
  split <;> rfl

theorem heartbeatUpdate_keyMatch (now : Int) (dn ip : Option String) (lid did lid' did' : String)
    (d : DeviceRow) :
    deviceKeyMatch lid' did' (heartbeatUpdate now dn ip lid did d) = deviceKeyMatch lid' did' d := by
  unfold heartbeatUpdate deviceKeyMatch
  split <;> rfl

theorem suspendMap_matches_imp (lid did lid' : String) (d : DeviceRow) :
    matchesActive lid' (if deviceKeyMatch lid did d then { d with is_active := false } else d) = true →
    matchesActive lid' d = true := by
  split
  · intro h
    exact absurd h (by simp [matchesActive])
  · exact id

/-! ## Preservation of the quota invariant, operation by operation -/

theorem quotaInv_of_le (db db' : DB) (hlic : db'.licenses = db.licenses)
    (hcnt : ∀ lid, activeCount db' lid ≤ activeCount db lid) (hinv : QuotaInv db) :
    QuotaInv db' := by
  intro lc h'
  rw [hlic] at h'
  exact Nat.le_trans (hcnt _) (hinv lc h')

theorem quotaInv_verify (db : DB) (now : Int) (code email : String) (did dn ip : Option String)
    (hids : LicenseIdsNodup db) (hinv : QuotaInv db) :
    QuotaInv (verify_license_with_email db now code email did dn ip).2 := by
  cases hfind : db.licenses.find? (licenseKeyMatch code) with
  | none => rw [verify_eq_none db now code email did dn ip hfind]; exact hinv
  | some lc =>
    rw [verify_eq_some db now code email did dn ip lc hfind]
    split
    · exact hinv
    · split
      · exact hinv
      · cases did with
        | none => exact hinv
        | some d =>
          cases hdev : db.device_activations.find? (deviceKeyMatch lc.license_id d) with
          | some row =>
            rw [devicePhase_found db now lc d dn ip row hdev]
            unfold verifyKnownDevice
            split
            · intro lc' h'
              have hbase := hinv lc' h'
              show (db.device_activations.map (heartbeatUpdate now dn ip lc.license_id d)).countP
                  (matchesActive lc'.license_id) ≤ lc'.device_limit
              rw [countP_map_eq _ _ _
                    (fun x => heartbeatUpdate_matchesActive now dn ip lc.license_id d lc'.license_id x)]
              exact hbase
            · exact hinv
          | none =>
            rw [devicePhase_new db now lc d dn ip hdev]
            simp only [verifyNewDevice]
            split
            · exact hinv
            · rename_i hq
              intro lc' h'
              show (db.device_activations ++ [(⟨lc.license_id, d, dn, ip, now, true⟩ : DeviceRow)]).countP
                  (matchesActive lc'.license_id) ≤ lc'.device_limit
              rw [List.countP_append]
              by_cases heq : lc'.license_id = lc.license_id
              · have hlc : lc' = lc :=
                  List.inj_on_of_nodup_map hids h' (List.mem_of_find?_eq_some hfind) heq
                have hcnt : activeCount db lc.license_id < lc.device_limit := Nat.lt_of_not_le hq
                have h1 : List.countP (matchesActive lc'.license_id)
                    [(⟨lc.license_id, d, dn, ip, now, true⟩ : DeviceRow)] = 1 := by
                  simp [List.countP_cons, matchesActive, heq]
                rw [h1]
                subst hlc
                exact hcnt
              · have hne : (lc.license_id == lc'.license_id) = false :=
                  beq_eq_false_iff_ne.mpr (fun hx => heq hx.symm)
                have h0 : List.countP (matchesActive lc'.license_id)
                    [(⟨lc.license_id, d, dn, ip, now, true⟩ : DeviceRow)] = 0 := by
                  simp [List.countP_cons, matchesActive, hne]
                rw [h0, Nat.add_zero]
                exact hinv lc' h'

theorem quotaInv_deactivate (db : DB) (lid did reason : String) (hinv : QuotaInv db) :
    QuotaInv (deactivate_device db lid did reason).2 := by
  unfold deactivate_device
  split
  · refine quotaInv_of_le db _ rfl (fun lid' => ?_) hinv
    exact countP_map_le _ _ _ (fun x => suspendMap_matches_imp lid did lid' x)
  · exact hinv

theorem quotaInv_cancel (db : DB) (lid did reason : String) (hinv : QuotaInv db) :
    QuotaInv (cancel_device_activation db lid did reason).2 := by
  unfold cancel_device_activation
  split
  · exact quotaInv_of_le db _ rfl (fun lid' => countP_filter_le _ _ _) hinv
  · exact hinv

theorem quotaInv_delete (db : DB) (now : Int) (code email did reason : String)
    (hinv : QuotaInv db) : QuotaInv (delete_device db now code email did reason).2 := by
  simp only [delete_device]
  rw [verify_none_db]
  split
  · split
    · split
      · exact quotaInv_of_le db _ rfl (fun lid' => countP_filter_le _ _ _) hinv
      · exact hinv
    · exact hinv
  · exact hinv

theorem quotaInv_revoke (db : DB) (lid reason : String) (rby : Option String)
    (hinv : QuotaInv db) : QuotaInv (revoke_license db lid reason rby).2 := by
  simp only [revoke_license]
  split
  · intro lc' h'
    simp only [List.mem_map] at h'
    obtain ⟨lc0, h0, rfl⟩ := h'
    have hid : (if lc0.license_id == lid then { lc0 with status := "revoked" } else lc0).license_id
        = lc0.license_id := by split <;> rfl
    have hlim : (if lc0.license_id == lid then { lc0 with status := "revoked" } else lc0).device_limit
        = lc0.device_limit := by split <;> rfl
    rw [hid, hlim]
    exact hinv lc0 h0
  · exact hinv

/-! ## Every op preserves the license-id column; sequences without restore
preserve the quota invariant -/

theorem restore_device_licenses (db : DB) (now : Int) (code email did reason : String) :
    (restore_device db now code email did reason).2.licenses = db.licenses := by
  simp only [restore_device]
  rw [verify_none_db]
  split
  · split
    · split <;> rfl
    · rfl
  · rfl

theorem delete_device_licenses (db : DB) (now : Int) (code email did reason : String) :
    (delete_device db now code email did reason).2.licenses = db.licenses := by
  simp only [delete_device]
  rw [verify_none_db]
  split
  · split
    · split <;> rfl
    · rfl
  · rfl

theorem applyOp_licenses_map_id (db : DB) (op : LedgerOp) :
    (applyOp db op).licenses.map (fun l => l.license_id) =
      db.licenses.map (fun l => l.license_id) := by
  cases op with
  | verify now code email did dn ip =>
    show ((verify_license_with_email db now code email did dn ip).2.licenses.map _) = _
    rw [verify_licenses_eq]
  | suspend lid did reason =>
    show ((deactivate_device db lid did reason).2.licenses.map _) = _
    unfold deactivate_device
    split <;> rfl
  | restoreAdmin lid did reason =>
    show ((activate_device db lid did reason).2.licenses.map _) = _
    unfold activate_device
    split <;> rfl
  | restoreUser now code email did reason =>
    show ((restore_device db now code email did reason).2.licenses.map _) = _
    rw [restore_device_licenses]
  | cancel lid did reason =>
    show ((cancel_device_activation db lid did reason).2.licenses.map _) = _
    unfold cancel_device_activation
    split <;> rfl
  | deleteDevice now code email did reason =>
    show ((delete_device db now code email did reason).2.licenses.map _) = _
    rw [delete_device_licenses]
  | revoke lid reason rby =>
    show ((revoke_license db lid reason rby).2.licenses.map _) = _
    simp only [revoke_license]
    split
    · rw [List.map_map]
      apply List.map_congr_left
      intro a _
      simp only [Function.comp]
      split <;> rfl
    · rfl

theorem licenseIdsNodup_applyOp (db : DB) (op : LedgerOp) (h : LicenseIdsNodup db) :
    LicenseIdsNodup (applyOp db op) := by
  unfold LicenseIdsNodup at h ⊢
  rw [applyOp_licenses_map_id]
  exact h

theorem quotaInv_applyOp (db : DB) (op : LedgerOp) (hids : LicenseIdsNodup db)
    (hinv : QuotaInv db) (hop : isRestoreOp op = false) : QuotaInv (applyOp db op) := by
  cases op with
  | verify now code email did dn ip => exact quotaInv_verify db now code email did dn ip hids hinv
  | suspend lid did reason => exact quotaInv_deactivate db lid did reason hinv
  | restoreAdmin lid did reason => simp [isRestoreOp] at hop
  | restoreUser now code email did reason => simp [isRestoreOp] at hop
  | cancel lid did reason => exact quotaInv_cancel db lid did reason hinv
  | deleteDevice now code email did reason => exact quotaInv_delete db now code email did reason hinv
  | revoke lid reason rby => exact quotaInv_revoke db lid reason rby hinv

/-- C1 (amended): the claim fails as stated because the restore operations
(`activate_device`, `/api/restore-device`) set `is_active = 1` with no
quota check.  Amended to what the code guarantees: for every sequence of
the *other* ledger operations (first-time activation, heartbeat, suspend,
cancel, delete, revoke) the active-row count of every license never
exceeds its `device_limit`. -/
theorem C1_quota_without_restore (db : DB) (ops : List LedgerOp)
    (hids : LicenseIdsNodup db) (hinv : QuotaInv db)
    (hops : ∀ op ∈ ops, isRestoreOp op = false) :
    QuotaInv (ops.foldl applyOp db) := by
  induction ops generalizing db with
  | nil => exact hinv
  | cons op ops ih =>
    rw [List.foldl_cons]
    exact ih (applyOp db op) (licenseIdsNodup_applyOp db op hids)
      (quotaInv_applyOp db op hids hinv (hops op (List.mem_cons_self op ops)))
      (fun o ho => hops o (List.mem_cons_of_mem op ho))

/-- C1 counterexample: on the one-device license `exLicense`, the sequence
activate d1 / suspend d1 / activate d2 / restore d1 leaves two active rows
against `device_limit = 1`, so the claimed invariant does not hold for
sequences containing restore. -/
theorem C1_counterexample :
    QuotaInv exDB ∧ LicenseIdsNodup exDB ∧
    ¬ QuotaInv (exOpsC1.foldl applyOp exDB) ∧
    activeCount (exOpsC1.foldl applyOp exDB) "L1" = 2 ∧
    exLicense.device_limit = 1 := by
  refine ⟨?_, ?_, ?_, ?_, ?_⟩
  · unfold QuotaInv; decide
  · unfold LicenseIdsNodup; decide
  · unfold QuotaInv; decide
  · decide
  · decide

/-- Witness for the amended C1 at a concrete restore-free run. -/
theorem C1_witness : QuotaInv (exOpsNR.foldl applyOp exDB) :=
  C1_quota_without_restore exDB exOpsNR (by unfold LicenseIdsNodup; decide)
    (by unfold QuotaInv; decide) (by decide)

/-- C2: the count-then-insert of the new-device path is *not* executed as
an atomic unit — the source issues a plain COUNT and a plain INSERT with no
row lock or serializable isolation, so two sessions' statements may
interleave.  Evaluated at the failing input (two first-time activations,
`device_limit = 1`, no rows yet) the interleaving probe-A, probe-B,
count-A, count-B, insert-A, insert-B makes *both* succeed, leaving 2
active rows; executed serially, the second attempt is correctly refused. -/
theorem C2_race_both_succeed :
    (raceTwoActivations exDB exLicense "devA" "devB" 0).1 = true ∧
    (raceTwoActivations exDB exLicense "devA" "devB" 0).2.1 = true ∧
    activeCount (raceTwoActivations exDB exLicense "devA" "devB" 0).2.2 "L1" = 2 ∧
    exLicense.device_limit = 1 ∧
    (verify_license_with_email
        (verify_license_with_email exDB 0 "C1" "a@b.co" (some "devA") none none).2
        1 "C1" "a@b.co" (some "devB") none none).1.error = some (quotaExceededMsg 1) := by
  refine ⟨?_, ?_, ?_, ?_, ?_⟩ <;> decide

/-- C3 counterexample: with the single slot of `exLicense` held by `d1` and
`d1` then suspended, a brand-new device `d2` activates successfully — the
suspended row does not retain the slot, contradicting the claim that such
a verification must fail with QuotaExceeded until `d1` is restored or
deleted. -/
theorem C3_counterexample :
    activeCount exDBd1 "L1" = exLicense.device_limit ∧
    (verify_license_with_email exDBsusp 1 "C1" "a@b.co" (some "d2") none none).1.valid = true ∧
    (verify_license_with_email exDBsusp 1 "C1" "a@b.co" (some "d2") none none).1.error ≠
      some (quotaExceededMsg exLicense.device_limit) := by
  refine ⟨?_, ?_, ?_⟩ <;> decide

/-- A normalization lemma: when the license is found, the email matches and
the license is unexpired, verification is exactly its device phase. -/
theorem verify_eq_devicePhase (db : DB) (now : Int) (code email : String)
    (did dn ip : Option String) (lc : LicenseRow)
    (hfind : db.licenses.find? (licenseKeyMatch code) = some lc)
    (hmail : pyLower lc.email = pyLower email)
    (hexp : licenseExpired lc now = false) :
    verify_license_with_email db now code email did dn ip = verifyDevicePhase db now lc did dn ip := by
  rw [verify_eq_some db now code email did dn ip lc hfind]
  have hbne : (pyLower lc.email != pyLower email) = false := by
    rw [hmail, bne_self_eq_false]
  rw [hbne, hexp]
  simp

/-- The known-device branch on an active row is the heartbeat update. -/
theorem knownDevice_active (db : DB) (now : Int) (lc : LicenseRow) (did : String)
    (dn ip : Option String) (row : DeviceRow) (hact : row.is_active = true) :
    verifyKnownDevice db now lc did dn ip row =
      (VerifyResult.ok lc (some heartbeatOkMsg),
       { db with
          device_activations := db.device_activations.map (heartbeatUpdate now dn ip lc.license_id did),
          activation_history := db.activation_history ++
            [⟨lc.license_id, "heartbeat", some did, ip, [("device_name", dn)]⟩] }) := by
  unfold verifyKnownDevice
  rw [hact]
  simp

/-- The known-device branch on a suspended row refuses and writes nothing. -/
theorem knownDevice_suspended (db : DB) (now : Int) (lc : LicenseRow) (did : String)
    (dn ip : Option String) (row : DeviceRow) (hact : row.is_active = false) :
    verifyKnownDevice db now lc did dn ip row = (VerifyResult.fail deviceSuspendedMsg, db) := by
  unfold verifyKnownDevice
  rw [hact]
  simp

/-- The new-device branch under the limit inserts one active row. -/
theorem newDevice_under_limit (db : DB) (now : Int) (lc : LicenseRow) (did : String)
    (dn ip : Option String) (hcnt : activeCount db lc.license_id < lc.device_limit) :
    verifyNewDevice db now lc did dn ip =
      (VerifyResult.ok lc none,
       { db with
          device_activations := db.device_activations ++
            [(⟨lc.license_id, did, dn, ip, now, true⟩ : DeviceRow)],
          activation_history := db.activation_history ++
            [⟨lc.license_id, "activate", some did, ip, [("device_name", dn)]⟩] }) := by
  simp only [verifyNewDevice]
  rw [if_neg (Nat.not_le.mpr hcnt)]

/-- C3 (amended): suspension blocks only the suspended device itself.  A
suspended row is excluded from the active-row count, so its slot is
immediately reusable: whenever the count is below the limit, a new
distinct device activates successfully; only the suspended device's own
re-verification fails (with the device-suspended message) until it is
restored. -/
theorem C3_suspension_frees_slot (db : DB) (now : Int) (code email : String)
    (lc : LicenseRow) (dS dN : String) (dn ip : Option String) (row : DeviceRow)
    (hfind : db.licenses.find? (licenseKeyMatch code) = some lc)
    (hmail : pyLower lc.email = pyLower email)
    (hexp : licenseExpired lc now = false)
    (hrow : db.device_activations.find? (deviceKeyMatch lc.license_id dS) = some row)
    (hsusp : row.is_active = false) :
    (verify_license_with_email db now code email (some dS) dn ip).1 =
        VerifyResult.fail deviceSuspendedMsg ∧
    (verify_license_with_email db now code email (some dS) dn ip).2 = db ∧
    (db.device_activations.find? (deviceKeyMatch lc.license_id dN) = none →
      activeCount db lc.license_id < lc.device_limit →
      (verify_license_with_email db now code email (some dN) dn ip).1.valid = true ∧
      activeCount (verify_license_with_email db now code email (some dN) dn ip).2 lc.license_id =
        activeCount db lc.license_id + 1) := by
  have hS : verify_license_with_email db now code email (some dS) dn ip =
      (VerifyResult.fail deviceSuspendedMsg, db) := by
    rw [verify_eq_devicePhase db now code email (some dS) dn ip lc hfind hmail hexp,
        devicePhase_found db now lc dS dn ip row hrow,
        knownDevice_suspended db now lc dS dn ip row hsusp]
  refine ⟨by rw [hS], by rw [hS], ?_⟩
  intro hnew hcnt
  have hN : verify_license_with_email db now code email (some dN) dn ip =
      (VerifyResult.ok lc none,
       { db with
          device_activations := db.device_activations ++
            [(⟨lc.license_id, dN, dn, ip, now, true⟩ : DeviceRow)],
          activation_history := db.activation_history ++
            [⟨lc.license_id, "activate", some dN, ip, [("device_name", dn)]⟩] }) := by
    rw [verify_eq_devicePhase db now code email (some dN) dn ip lc hfind hmail hexp,
        devicePhase_new db now lc dN dn ip hnew,
        newDevice_under_limit db now lc dN dn ip hcnt]
  rw [hN]
  refine ⟨rfl, ?_⟩
  show (db.device_activations ++ [(⟨lc.license_id, dN, dn, ip, now, true⟩ : DeviceRow)]).countP
      (matchesActive lc.license_id) = activeCount db lc.license_id + 1
  rw [List.countP_append]
  have h1 : List.countP (matchesActive lc.license_id)
      [(⟨lc.license_id, dN, dn, ip, now, true⟩ : DeviceRow)] = 1 := by
    simp [List.countP_cons, matchesActive]
  rw [h1]
  rfl

/-- Witness for the amended C3 at the concrete suspended store `exDBsusp`. -/
theorem C3_witness :
    (verify_license_with_email exDBsusp 1 "C1" "a@b.co" (some "d1") none none).1 =
        VerifyResult.fail deviceSuspendedMsg ∧
    (verify_license_with_email exDBsusp 1 "C1" "a@b.co" (some "d2") none none).1.valid = true := by
  have h := C3_suspension_frees_slot exDBsusp 1 "C1" "a@b.co" exLicense "d1" "d2" none none
    ⟨"L1", "d1", none, none, 0, false⟩ (by decide) (by decide) (by decide) (by decide) (by decide)
  exact ⟨h.1, (h.2.2 (by decide) (by decide)).1⟩

/-! ## The heartbeat path (claim C5) -/

theorem heartbeatUpdate_is_active (now : Int) (dn ip : Option String) (lid did : String)
    (d : DeviceRow) : (heartbeatUpdate now dn ip lid did d).is_active = d.is_active := by
  unfold heartbeatUpdate
  split <;> rfl

theorem heartbeatUpdate_proj (now : Int) (dn ip : Option String) (lid did : String)
    (d : DeviceRow) :
    ((heartbeatUpdate now dn ip lid did d).license_id, (heartbeatUpdate now dn ip lid did d).device_id,
     (heartbeatUpdate now dn ip lid did d).is_active) = (d.license_id, d.device_id, d.is_active) := by
  unfold heartbeatUpdate
  split <;> rfl

/-- One heartbeat call: succeeds, rewrites only the volatile fields of the
existing row, appends one `heartbeat` entry, changes no active count — and
leaves the store heartbeat-ready again, so the call can be repeated. -/
theorem heartbeat_step (db : DB) (now : Int) (code email did : String) (dn ip : Option String)
    (h : HeartbeatReady db now code email did) :
    (verify_license_with_email db now code email (some did) dn ip).1.valid = true ∧
    (verify_license_with_email db now code email (some did) dn ip).1.message = some heartbeatOkMsg ∧
    (verify_license_with_email db now code email (some did) dn ip).1.error = none ∧
    (∀ lid, activeCount (verify_license_with_email db now code email (some did) dn ip).2 lid =
       activeCount db lid) ∧
    (verify_license_with_email db now code email (some did) dn ip).2.licenses = db.licenses ∧
    ((verify_license_with_email db now code email (some did) dn ip).2.device_activations.map
       (fun x => (x.license_id, x.device_id, x.is_active)) =
     db.device_activations.map (fun x => (x.license_id, x.device_id, x.is_active))) ∧
    (∃ lc, db.licenses.find? (licenseKeyMatch code) = some lc ∧
      (verify_license_with_email db now code email (some did) dn ip).2.activation_history =
        db.activation_history ++
          [(⟨lc.license_id, "heartbeat", some did, ip, [("device_name", dn)]⟩ : HistoryEntry)]) ∧
    HeartbeatReady (verify_license_with_email db now code email (some did) dn ip).2 now code email did := by
  obtain ⟨lc, row, hfind, hmail, hexp, hdev, hact⟩ := h
  have hv : verify_license_with_email db now code email (some did) dn ip =
      (VerifyResult.ok lc (some heartbeatOkMsg),
       { db with
          device_activations := db.device_activations.map (heartbeatUpdate now dn ip lc.license_id did),
          activation_history := db.activation_history ++
            [⟨lc.license_id, "heartbeat", some did, ip, [("device_name", dn)]⟩] }) := by
    rw [verify_eq_devicePhase db now code email (some did) dn ip lc hfind hmail hexp,
        devicePhase_found db now lc did dn ip row hdev,
        knownDevice_active db now lc did dn ip row hact]
  rw [hv]
  refine ⟨rfl, rfl, rfl, ?_, rfl, ?_, ⟨lc, hfind, rfl⟩, ?_⟩
  · intro lid
    show (db.device_activations.map (heartbeatUpdate now dn ip lc.license_id did)).countP
        (matchesActive lid) = db.device_activations.countP (matchesActive lid)
    exact countP_map_eq _ _ _ (fun x => heartbeatUpdate_matchesActive now dn ip lc.license_id did lid x)
  · show (db.device_activations.map (heartbeatUpdate now dn ip lc.license_id did)).map _ =
        db.device_activations.map _
    rw [List.map_map]
    exact List.map_congr_left (fun x _ => heartbeatUpdate_proj now dn ip lc.license_id did x)
  · refine ⟨lc, heartbeatUpdate now dn ip lc.license_id did row, hfind, hmail, hexp, ?_, ?_⟩
    · show (db.device_activations.map (heartbeatUpdate now dn ip lc.license_id did)).find?
          (deviceKeyMatch lc.license_id did) = _
      rw [find?_map_pres _ _ _
            (fun x => heartbeatUpdate_keyMatch now dn ip lc.license_id did lc.license_id did x), hdev]
      rfl
    · rw [heartbeatUpdate_is_active]
      exact hact

/-- C5: heartbeat is idempotent.  On a heartbeat-ready store (active
license found by code, matching email, unexpired, device already bound and
active), the call succeeds with the device-already-active message and no
error, leaves every license's active-row count unchanged (only the
volatile fields `last_seen_at`/`device_name`/`ip_address` of the existing
row move, witnessed by the key/activity projection), appends exactly one
`heartbeat` history entry — and arbitrary repetition keeps succeeding with
the count still unchanged, hence never returns QuotaExceeded. -/
theorem C5_heartbeat_idempotent (db : DB) (now : Int) (code email did : String)
    (dn ip : Option String) (h : HeartbeatReady db now code email did) :
    ((verify_license_with_email db now code email (some did) dn ip).1.valid = true ∧
     (verify_license_with_email db now code email (some did) dn ip).1.message = some heartbeatOkMsg ∧
     (verify_license_with_email db now code email (some did) dn ip).1.error = none ∧
     (∀ lid, activeCount (verify_license_with_email db now code email (some did) dn ip).2 lid =
        activeCount db lid) ∧
     ((verify_license_with_email db now code email (some did) dn ip).2.device_activations.map
        (fun x => (x.license_id, x.device_id, x.is_active)) =
      db.device_activations.map (fun x => (x.license_id, x.device_id, x.is_active))) ∧
     (∃ lc, db.licenses.find? (licenseKeyMatch code) = some lc ∧
       (verify_license_with_email db now code email (some did) dn ip).2.activation_history =
         db.activation_history ++
           [(⟨lc.license_id, "heartbeat", some did, ip, [("device_name", dn)]⟩ : HistoryEntry)])) ∧
    (∀ n : Nat,
      (verify_license_with_email (iterHeartbeat db now code email did dn ip n)
          now code email (some did) dn ip).1.valid = true ∧
      (∀ lid, activeCount (iterHeartbeat db now code email did dn ip n) lid = activeCount db lid)) := by
  have hiter : ∀ n : Nat,
      HeartbeatReady (iterHeartbeat db now code email did dn ip n) now code email did ∧
      (∀ lid, activeCount (iterHeartbeat db now code email did dn ip n) lid = activeCount db lid) := by
    intro n
    induction n with
    | zero => exact ⟨h, fun _ => rfl⟩
    | succ n ih =>
      obtain ⟨hr, hc⟩ := ih
      obtain ⟨_, _, _, hcnt, _, _, _, hready⟩ := heartbeat_step _ now code email did dn ip hr
      refine ⟨hready, fun lid => ?_⟩
      show activeCount (verify_license_with_email (iterHeartbeat db now code email did dn ip n)
          now code email (some did) dn ip).2 lid = activeCount db lid
      rw [hcnt lid, hc lid]
  obtain ⟨h1, h2, h3, h4, h5, h6, h7, _⟩ := heartbeat_step db now code email did dn ip h
  refine ⟨⟨h1, h2, h3, h4, h6, h7⟩, fun n => ?_⟩
  obtain ⟨hr, hc⟩ := hiter n
  obtain ⟨hv, _, _, _, _, _, _, _⟩ := heartbeat_step _ now code email did dn ip hr
  exact ⟨hv, hc⟩

/-- Witness for C5 on the concrete activated store `exDBd1`, repeated three
times. -/
theorem C5_witness :
    (verify_license_with_email exDBd1 0 "C1" "a@b.co" (some "d1") none none).1.valid = true ∧
    activeCount (iterHeartbeat exDBd1 0 "C1" "a@b.co" "d1" none none 3) "L1" =
      activeCount exDBd1 "L1" := by
  have h : HeartbeatReady exDBd1 0 "C1" "a@b.co" "d1" :=
    ⟨exLicense, ⟨"L1", "d1", none, none, 0, true⟩, by decide, by decide, by decide, by decide, rfl⟩
  have hmain := C5_heartbeat_idempotent exDBd1 0 "C1" "a@b.co" "d1" none none h
  exact ⟨hmain.1.1, (hmain.2 3).2 "L1"⟩

/-! ## Extend-validity (claim C4) -/

/-- C4: the IFNULL in the extend-validity UPDATE has its arguments swapped
relative to the source's own comment (line 825) and the spec: its first
argument `DATE_ADD(UTC_TIMESTAMP(), ...)` is never NULL, so an existing
expiry is always *replaced* by now + days instead of being extended.
Evaluated at the failing input (valid_until = second 8640000 = day 100,
days = 5, now = second 17280000 = day 200): the code yields day 205 where
the claimed behavior yields day 105; in general the update returns
now + days whatever is stored. -/
theorem C4_extend_validity_replaces :
    admin_extend_validity_update 17280000 5 (some 8640000) = some (17280000 + 86400 * 5) ∧
    extend_validity_spec 17280000 5 (some 8640000) = some (8640000 + 86400 * 5) ∧
    admin_extend_validity_update 17280000 5 (some 8640000) ≠
      extend_validity_spec 17280000 5 (some 8640000) ∧
    (∀ (now days : Int) (vu : Option Int),
      admin_extend_validity_update now days vu = some (now + 86400 * days)) :=
  ⟨by decide, by decide, by decide, fun _ _ _ => rfl⟩

/-! ## Issuance duration resolution (claim C6) -/

theorem resolveValidUntil_monthly (days : Option Int) (now : Int) :
    resolveValidUntil "monthly" days now =
      some (now + 86400 * (if pyIntFalsy days then 31 else days.getD 0)) := by
  have h2 : (("monthly" : String) == "yearly") = false := by decide
  have h3 : (("monthly" : String) != "lifetime") = true := by decide
  have h31 : pyIntFalsy (some 31) = false := by decide
  cases hdf : pyIntFalsy days <;> simp [resolveValidUntil, hdf, h2, h3, h31]

theorem resolveValidUntil_yearly (days : Option Int) (now : Int) :
    resolveValidUntil "yearly" days now =
      some (now + 86400 * (if pyIntFalsy days then 365 else days.getD 0)) := by
  have h1 : (("yearly" : String) == "monthly") = false := by decide
  have h3 : (("yearly" : String) != "lifetime") = true := by decide
  have h365 : pyIntFalsy (some 365) = false := by decide
  cases hdf : pyIntFalsy days <;> simp [resolveValidUntil, hdf, h1, h3, h365]

theorem resolveValidUntil_lifetime (days : Option Int) (now : Int) :
    resolveValidUntil "lifetime" days now = none := by
  have h1 : (("lifetime" : String) == "monthly") = false := by decide
  have h2 : (("lifetime" : String) == "yearly") = false := by decide
  have h3 : (("lifetime" : String) != "lifetime") = false := by decide
  simp [resolveValidUntil, h1, h2, h3]

/-- For a valid email and a recognized plan, issuance returns and stores
exactly the normalized plan and the resolved expiry. -/
theorem generate_result (db : DB) (now : Int) (plan email : String) (cap : Nat)
    (days : Option Int) (t r : Nat) (u : String)
    (hemail : is_valid_email email = true)
    (hplan : (pyLower (pyStrip plan) == "monthly" || pyLower (pyStrip plan) == "yearly" ||
              pyLower (pyStrip plan) == "lifetime") = true) :
    generate_license_with_email db now plan email cap days t r u =
      (⟨none, some ("LIC-" ++ u), some (generate_activation_code t r), some (pyLower (pyStrip plan)),
        some cap, resolveValidUntil (pyLower (pyStrip plan)) days now⟩,
       { db with licenses := db.licenses ++
          [⟨"LIC-" ++ u, generate_activation_code t r, email, pyLower (pyStrip plan), cap, now,
            resolveValidUntil (pyLower (pyStrip plan)) days now, "active"⟩] }) := by
  simp [generate_license_with_email, hemail, hplan]

/-- C6 counterexample: a monthly license issued with the explicit duration
override 0 gets the 31-day plan default, not the 0-day override — `not
days` treats the falsy override 0 as absent, so "an explicit duration
override wins" fails at days = 0. -/
theorem C6_counterexample :
    (generate_license_with_email exDB 0 "monthly" "x@y.de" 5 (some 0) 0 0 "AA").1.error = none ∧
    (generate_license_with_email exDB 0 "monthly" "x@y.de" 5 (some 0) 0 0 "AA").1.valid_until =
      some (86400 * 31) ∧
    (generate_license_with_email exDB 0 "monthly" "x@y.de" 5 (some 0) 0 0 "AA").1.valid_until ≠
      some (0 + 86400 * 0) := by
  refine ⟨?_, ?_, ?_⟩ <;> decide

/-- C6 (amended): a *nonzero* explicit duration override wins; an override
of 0 (or one that failed `int(...)` conversion, arriving as None) is falsy
in the source's `not days` test and is replaced by the plan default
(monthly → 31 days, yearly → 365 days); the stored `valid_until` is the
issuance instant plus the resolved duration and is never null for monthly
or yearly; a lifetime license's `valid_until` is always null, even with an
explicit override. -/
theorem C6_duration_resolution (db : DB) (now : Int) (plan email : String) (cap : Nat)
    (days : Option Int) (t r : Nat) (u : String)
    (hemail : is_valid_email email = true) :
    (pyLower (pyStrip plan) = "monthly" →
      (generate_license_with_email db now plan email cap days t r u).1.valid_until =
        some (now + 86400 * (if pyIntFalsy days then 31 else days.getD 0))) ∧
    (pyLower (pyStrip plan) = "yearly" →
      (generate_license_with_email db now plan email cap days t r u).1.valid_until =
        some (now + 86400 * (if pyIntFalsy days then 365 else days.getD 0))) ∧
    (pyLower (pyStrip plan) = "lifetime" →
      (generate_license_with_email db now plan email cap days t r u).1.valid_until = none) ∧
    ((pyLower (pyStrip plan) = "monthly" ∨ pyLower (pyStrip plan) = "yearly" ∨
      pyLower (pyStrip plan) = "lifetime") →
      (generate_license_with_email db now plan email cap days t r u).2.licenses =
        db.licenses ++ [⟨"LIC-" ++ u, generate_activation_code t r, email, pyLower (pyStrip plan),
          cap, now, (generate_license_with_email db now plan email cap days t r u).1.valid_until,
          "active"⟩]) := by
  refine ⟨?_, ?_, ?_, ?_⟩
  · intro hp
    have hb : (pyLower (pyStrip plan) == "monthly" || pyLower (pyStrip plan) == "yearly" ||
        pyLower (pyStrip plan) == "lifetime") = true := by rw [hp]; decide
    rw [generate_result db now plan email cap days t r u hemail hb]
    show resolveValidUntil (pyLower (pyStrip plan)) days now = _
    rw [hp, resolveValidUntil_monthly]
  · intro hp
    have hb : (pyLower (pyStrip plan) == "monthly" || pyLower (pyStrip plan) == "yearly" ||
        pyLower (pyStrip plan) == "lifetime") = true := by rw [hp]; decide
    rw [generate_result db now plan email cap days t r u hemail hb]
    show resolveValidUntil (pyLower (pyStrip plan)) days now = _
    rw [hp, resolveValidUntil_yearly]
  · intro hp
    have hb : (pyLower (pyStrip plan) == "monthly" || pyLower (pyStrip plan) == "yearly" ||
        pyLower (pyStrip plan) == "lifetime") = true := by rw [hp]; decide
    rw [generate_result db now plan email cap days t r u hemail hb]
    show resolveValidUntil (pyLower (pyStrip plan)) days now = _
    rw [hp, resolveValidUntil_lifetime]
  · intro hor
    have hb : (pyLower (pyStrip plan) == "monthly" || pyLower (pyStrip plan) == "yearly" ||
        pyLower (pyStrip plan) == "lifetime") = true := by
      rcases hor with hp | hp | hp <;> rw [hp] <;> decide
    rw [generate_result db now plan email cap days t r u hemail hb]

/-- Witness for the amended C6: a monthly license with no override gets
31 days. -/
theorem C6_witness :
    (generate_license_with_email exDB 0 "monthly" "x@y.de" 5 none 0 0 "AA").1.valid_until =
      some (0 + 86400 * 31) := by
  have h := (C6_duration_resolution exDB 0 "monthly" "x@y.de" 5 none 0 0 "AA" (by decide)).1
    (by decide)
  have h31 : (if pyIntFalsy none then (31 : Int) else (none : Option Int).getD 0) = 31 := by decide
  rw [h31] at h
  exact h

/-! ## Revocation idempotence (claim C8) -/

theorem filter_map_noMatch (lid r : String) (rby : Option String) (l : List RevRow)
    (h : l.filter (fun rr => rr.license_id == lid) = []) :
    (l.map (fun rr =>
        if rr.license_id == lid then { rr with reason := r, revoked_by := rby } else rr)).filter
      (fun rr => rr.license_id == lid) = [] := by
  induction l with
  | nil => rfl
  | cons a l ih =>
    rw [List.filter_cons] at h
    by_cases ha : (a.license_id == lid) = true
    · rw [if_pos ha] at h
      exact absurd h (List.cons_ne_nil a _)
    · rw [if_neg ha] at h
      rw [List.map_cons]
      have hfa : (if a.license_id == lid then { a with reason := r, revoked_by := rby } else a) = a :=
        if_neg ha
      rw [hfa, List.filter_cons, if_neg ha]
      exact ih h

theorem filter_map_upsert (lid r : String) (rby : Option String) (l : List RevRow)
    (hcount : (l.filter (fun rr => rr.license_id == lid)).length ≤ 1)
    (hany : l.any (fun rr => rr.license_id == lid) = true) :
    (l.map (fun rr =>
        if rr.license_id == lid then { rr with reason := r, revoked_by := rby } else rr)).filter
      (fun rr => rr.license_id == lid) = [(⟨lid, r, rby⟩ : RevRow)] := by
  induction l with
  | nil => cases hany
  | cons a l ih =>
    by_cases ha : (a.license_id == lid) = true
    · have haeq : a.license_id = lid := eq_of_beq ha
      have htail : l.filter (fun rr => rr.license_id == lid) = [] := by
        rw [List.filter_cons, if_pos ha] at hcount
        cases hfl : l.filter (fun rr => rr.license_id == lid) with
        | nil => rfl
        | cons b bs =>
          rw [hfl] at hcount
          simp at hcount
      rw [List.map_cons]
      have hupd : (if a.license_id == lid then { a with reason := r, revoked_by := rby } else a)
          = (⟨lid, r, rby⟩ : RevRow) := by
        rw [if_pos ha]
        obtain ⟨alid, ar, arby⟩ := a
        simp only at haeq
        rw [haeq]
      rw [hupd, List.filter_cons, if_pos (by simp)]
      rw [filter_map_noMatch lid r rby l htail]
    · have hcount' : (l.filter (fun rr => rr.license_id == lid)).length ≤ 1 := by
        rw [List.filter_cons, if_neg ha] at hcount
        exact hcount
      have hany' : l.any (fun rr => rr.license_id == lid) = true := by
        rw [List.any_cons] at hany
        cases hpa : (a.license_id == lid) with
        | true => exact absurd hpa ha
        | false =>
          rw [hpa] at hany
          simpa using hany
      rw [List.map_cons]
      have hfa : (if a.license_id == lid then { a with reason := r, revoked_by := rby } else a) = a :=
        if_neg ha
      rw [hfa, List.filter_cons, if_neg ha]
      exact ih hcount' hany'

/-- The revocation-record upsert always leaves exactly one record for the
license, holding the latest reason and actor. -/
theorem revokeUpsert_filter (l : List RevRow) (lid r : String) (rby : Option String)
    (h : (l.filter (fun rr => rr.license_id == lid)).length ≤ 1) :
    (revokeUpsert l lid r rby).filter (fun rr => rr.license_id == lid) =
      [(⟨lid, r, rby⟩ : RevRow)] := by
  unfold revokeUpsert
  split
  · rename_i hany
    exact filter_map_upsert lid r rby l h hany
  · rename_i hany
    have h0 : l.filter (fun rr => rr.license_id == lid) = [] := by
      rw [List.filter_eq_nil_iff]
      intro a ha hpa
      exact hany (List.any_eq_true.mpr ⟨a, ha, hpa⟩)
    rw [List.filter_append, h0, List.nil_append, List.filter_cons, if_pos (by simp)]
    rfl

/-- Upserting the same record twice is the same as upserting it once. -/
theorem revokeUpsert_idem (l : List RevRow) (lid r : String) (rby : Option String)
    (h : (l.filter (fun rr => rr.license_id == lid)).length ≤ 1) :
    revokeUpsert (revokeUpsert l lid r rby) lid r rby = revokeUpsert l lid r rby := by
  have hfilt := revokeUpsert_filter l lid r rby h
  have hany : (revokeUpsert l lid r rby).any (fun rr => rr.license_id == lid) = true := by
    rw [List.any_eq_true]
    have hmem : (⟨lid, r, rby⟩ : RevRow) ∈
        (revokeUpsert l lid r rby).filter (fun rr => rr.license_id == lid) := by
      rw [hfilt]
      exact List.mem_singleton_self _
    obtain ⟨hmem', hp⟩ := List.mem_filter.mp hmem
    exact ⟨_, hmem', hp⟩
  show (if (revokeUpsert l lid r rby).any (fun rr => rr.license_id == lid) then
          (revokeUpsert l lid r rby).map (fun rr =>
            if rr.license_id == lid then { rr with reason := r, revoked_by := rby } else rr)
        else revokeUpsert l lid r rby ++ [⟨lid, r, rby⟩]) = revokeUpsert l lid r rby
  rw [if_pos hany]
  have hid : ∀ x ∈ revokeUpsert l lid r rby,
      (if x.license_id == lid then { x with reason := r, revoked_by := rby } else x) = x := by
    intro x hx
    by_cases hxx : (x.license_id == lid) = true
    · have hxf : x ∈ (revokeUpsert l lid r rby).filter (fun rr => rr.license_id == lid) :=
        List.mem_filter.mpr ⟨hx, hxx⟩
      rw [hfilt] at hxf
      have hxe : x = ⟨lid, r, rby⟩ := List.eq_of_mem_singleton hxf
      subst hxe
      rw [if_pos hxx]
    · rw [if_neg hxx]
  calc (revokeUpsert l lid r rby).map (fun rr =>
          if rr.license_id == lid then { rr with reason := r, revoked_by := rby } else rr)
      = (revokeUpsert l lid r rby).map id := List.map_congr_left (fun x hx => hid x hx)
    _ = revokeUpsert l lid r rby := List.map_id _

theorem revokeStatus_license_id (lid : String) (x : LicenseRow) :
    (if x.license_id == lid then { x with status := "revoked" } else x).license_id
      = x.license_id := by
  split <;> rfl

theorem revoke_any_map (lid : String) (l : List LicenseRow) :
    (l.map (fun x => if x.license_id == lid then { x with status := "revoked" } else x)).any
      (fun x => x.license_id == lid) = l.any (fun x => x.license_id == lid) := by
  induction l with
  | nil => rfl
  | cons a l ih =>
    rw [List.map_cons, List.any_cons, List.any_cons, revokeStatus_license_id, ih]

theorem revokeStatus_map_idem (lid : String) (l : List LicenseRow) :
    (l.map (fun x => if x.license_id == lid then { x with status := "revoked" } else x)).map
      (fun x => if x.license_id == lid then { x with status := "revoked" } else x) =
    l.map (fun x => if x.license_id == lid then { x with status := "revoked" } else x) := by
  rw [List.map_map]
  apply List.map_congr_left
  intro a _
  simp only [Function.comp]
  by_cases ha : (a.license_id == lid) = true <;> simp [ha]

theorem revoke_status_map (lid : String) (l0 : List LicenseRow) :
    ∀ x ∈ l0.map (fun l => if l.license_id == lid then { l with status := "revoked" } else l),
      x.license_id = lid → x.status = "revoked" := by
  intro x hx hxid
  obtain ⟨y, hy, rfl⟩ := List.mem_map.mp hx
  by_cases hyy : (y.license_id == lid) = true
  · simp [hyy]
  · rw [if_neg hyy] at hxid ⊢
    exact absurd (beq_iff_eq.mpr hxid) hyy

/-- Calling `revoke_license` on an existing license: the committed writes. -/
theorem revoke_eq_true (db : DB) (lid r : String) (rby : Option String)
    (hex : db.licenses.any (fun l => l.license_id == lid) = true) :
    revoke_license db lid r rby =
      (true,
       { db with
          revoked_licenses := revokeUpsert db.revoked_licenses lid r rby,
          licenses := db.licenses.map (fun l =>
            if l.license_id == lid then { l with status := "revoked" } else l),
          activation_history := db.activation_history ++
            [⟨lid, "revoke", none, none, [("reason", some r), ("revoked_by", rby)]⟩] }) := by
  simp only [revoke_license]
  rw [if_pos hex]

/-- C8: revocation is idempotent: both calls succeed; the second call
leaves the licenses table exactly as the first left it (status revoked for
the target license); the revocation records hold exactly one row for the
license, carrying the second call's reason and actor; with identical
arguments the second call changes the revocation records not at all. -/
theorem C8_revoke_idempotent (db : DB) (lid r1 r2 : String) (b1 b2 : Option String)
    (hex : db.licenses.any (fun l => l.license_id == lid) = true)
    (hone : (db.revoked_licenses.filter (fun rr => rr.license_id == lid)).length ≤ 1) :
    (revoke_license db lid r1 b1).1 = true ∧
    (revoke_license (revoke_license db lid r1 b1).2 lid r2 b2).1 = true ∧
    (revoke_license (revoke_license db lid r1 b1).2 lid r2 b2).2.licenses =
      (revoke_license db lid r1 b1).2.licenses ∧
    (∀ l ∈ (revoke_license (revoke_license db lid r1 b1).2 lid r2 b2).2.licenses,
      l.license_id = lid → l.status = "revoked") ∧
    (revoke_license (revoke_license db lid r1 b1).2 lid r2 b2).2.revoked_licenses.filter
      (fun rr => rr.license_id == lid) = [(⟨lid, r2, b2⟩ : RevRow)] ∧
    ((r1 = r2 ∧ b1 = b2) →
      (revoke_license (revoke_license db lid r1 b1).2 lid r2 b2).2.revoked_licenses =
        (revoke_license db lid r1 b1).2.revoked_licenses) := by
  have e1 := revoke_eq_true db lid r1 b1 hex
  have hex2 : (revoke_license db lid r1 b1).2.licenses.any
      (fun l => l.license_id == lid) = true := by
    rw [e1]
    show (db.licenses.map _).any _ = true
    rw [revoke_any_map]
    exact hex
  have e2 := revoke_eq_true (revoke_license db lid r1 b1).2 lid r2 b2 hex2
  have hone1 : ((revoke_license db lid r1 b1).2.revoked_licenses.filter
      (fun rr => rr.license_id == lid)).length ≤ 1 := by
    rw [e1]
    show ((revokeUpsert db.revoked_licenses lid r1 b1).filter _).length ≤ 1
    rw [revokeUpsert_filter db.revoked_licenses lid r1 b1 hone]
    exact Nat.le_refl 1
  refine ⟨by rw [e1], by rw [e2], ?_, ?_, ?_, ?_⟩
  · rw [e2, e1]
    exact revokeStatus_map_idem lid db.licenses
  · rw [e2]
    intro x hx
    exact revoke_status_map lid _ x hx
  · rw [e2]
    exact revokeUpsert_filter _ lid r2 b2 hone1
  · rintro ⟨rfl, rfl⟩
    rw [e2, e1]
    exact revokeUpsert_idem db.revoked_licenses lid r1 b1 hone

/-- Witness for C8 on the concrete store `exDB`, revoking twice with
different reasons. -/
theorem C8_witness :
    (revoke_license exDB "L1" "fraud" (some "admin")).1 = true ∧
    (revoke_license (revoke_license exDB "L1" "fraud" (some "admin")).2
      "L1" "chargeback" (some "ops")).2.revoked_licenses.filter
        (fun rr => rr.license_id == "L1") = [(⟨"L1", "chargeback", some "ops"⟩ : RevRow)] := by
  have h := C8_revoke_idempotent exDB "L1" "fraud" "chargeback" (some "admin") (some "ops")
    (by decide) (by decide)
  exact ⟨h.1, h.2.2.2.2.1⟩

/-! ## Error-message distinguishability (claim C9) -/

/-- C9 counterexample: the external response message for an unknown code
differs from the one for a known code with a mismatched email — the caller
*can* tell which of the two secrets was wrong, contradicting the claimed
single generic message. -/
theorem C9_counterexample :
    (verify_license_endpoint exDB 0 "NOPE" "a@b.co" "d9" none none).1.message = codeNotFoundMsg ∧
    (verify_license_endpoint exDB 0 "C1" "wrong@x.co" "d9" none none).1.message = emailMismatchMsg ∧
    (verify_license_endpoint exDB 0 "NOPE" "a@b.co" "d9" none none).1.message ≠
      (verify_license_endpoint exDB 0 "C1" "wrong@x.co" "d9" none none).1.message := by
  refine ⟨?_, ?_, ?_⟩ <;> decide

/-- C9 (amended): both failures share success = false, structured code
INVALID_LICENSE and HTTP status 400, but the manager's specific error
string is copied verbatim into the externally returned message
(`'message': result.get('error', ...)`, line 565), and the code-not-found
and email-mismatch strings differ — so the response message reveals which
check failed. -/
theorem C9_error_passthrough (db : DB) (now : Int) (code email did : String)
    (dn ip : Option String)
    (hinv : (verify_license_with_email db now code email (some did) dn ip).1.valid = false) :
    (verify_license_endpoint db now code email did dn ip).1.success = false ∧
    (verify_license_endpoint db now code email did dn ip).1.code = "INVALID_LICENSE" ∧
    (verify_license_endpoint db now code email did dn ip).1.status = 400 ∧
    (verify_license_endpoint db now code email did dn ip).1.message =
      (verify_license_with_email db now code email (some did) dn ip).1.error.getD "许可证验证失败" ∧
    codeNotFoundMsg ≠ emailMismatchMsg := by
  refine ⟨?_, ?_, ?_, ?_, by decide⟩ <;> simp [verify_license_endpoint, hinv]

/-- Witness for the amended C9 at the unknown-code input. -/
theorem C9_witness :
    (verify_license_endpoint exDB 0 "NOPE" "a@b.co" "d9" none none).1.success = false ∧
    (verify_license_endpoint exDB 0 "NOPE" "a@b.co" "d9" none none).1.code = "INVALID_LICENSE" ∧
    (verify_license_endpoint exDB 0 "NOPE" "a@b.co" "d9" none none).1.message =
      codeNotFoundMsg := by
  have h := C9_error_passthrough exDB 0 "NOPE" "a@b.co" "d9" none none (by decide)
  exact ⟨h.1, h.2.1, by rw [h.2.2.2.1]; decide⟩

end OneClip
